import Mathlib

/-!
Shallow embedding of the Purelytics ingredient-scoring core
(`src/services/ingredientParser.js`, `src/data/ingredientDatabase.js`,
and the alternatives ranker of the AI-service module), together with
proofs checking the natural-language specification against it.

Modelling conventions:
* JS strings are Lean `String`s; the character-level operations
  (lowercasing, regex stripping, substring containment) are defined on
  `List Char` and lifted.  `toLowerCase` is modelled on the ASCII range
  (every string constant in the reference data is ASCII, and the
  normalizer strips every non-`[a-z0-9\s]` character right after
  lowercasing, so non-ASCII case folding is invisible to the core).
* The JS whitespace class `\s` is modelled by the ECMAScript whitespace
  code points.
* JS numbers are `Int` (all scores are integers) and the price parse of
  the ranker, `parseFloat`, is modelled exactly as a decimal fraction,
  with `none` playing the role of `NaN` (`NaN` fails every `<`/`>`/`<=`
  comparison, and `none` is made to do the same at each use site).
* `Date.now()` is an explicit clock argument `now : Nat`; the ISO
  rendering of the clock in `scannedAt` is abstracted to the raw tick.
* Display-only record fields that the engine never reads
  (`plainEnglish`, `healthNotes`, `eNumber`, `dailyLimit`,
  `regulatoryStatus`, `bans`, `foundIn`, and the ranker's `stores` /
  `highlights`) are omitted, as the spec itself excludes them from the
  core contract.
* Object-literal bracket lookup (`CATEGORY_ALTERNATIVES[category]`) is
  modelled in two layers: `lookupBucket` is the own-property lookup
  with the `Other` fallback, and `getAlternativesForCategoryJS` adds
  the JS prototype chain — for a category string naming an inherited
  `Object.prototype` member the lookup yields a truthy non-array, the
  `||` does not fall back, and the subsequent `.map` throws a
  `TypeError`, modelled as `none`.
* `Array.prototype.sort` is modelled as a stable sort (required by
  ECMAScript 2019 and later).
-/

/-! ### Character and string primitives -/

/-- ASCII uppercase test, code points 65–90 (`A`–`Z`). -/
def isUpperAZ (c : Char) : Bool :=
  65 ≤ c.toNat && c.toNat ≤ 90

/-- ASCII lowercase test, code points 97–122 (`a`–`z`). -/
def isLowerAZ (c : Char) : Bool :=
  97 ≤ c.toNat && c.toNat ≤ 122

/-- ASCII digit test, code points 48–57 (`0`–`9`). -/
def isDigit09 (c : Char) : Bool :=
  48 ≤ c.toNat && c.toNat ≤ 57

/-- `String.prototype.toLowerCase`, modelled on the ASCII range. -/
def toLowerJS (c : Char) : Char :=
  if isUpperAZ c then Char.ofNat (c.toNat + 32) else c

/-- The ECMAScript whitespace class `\s` (WhiteSpace ∪ LineTerminator). -/
def jsWS (c : Char) : Bool :=
  c.toNat = 32 || c.toNat = 9 || c.toNat = 10 || c.toNat = 11 || c.toNat = 12 ||
  c.toNat = 13 || c.toNat = 160 || c.toNat = 5760 ||
  (8192 ≤ c.toNat && c.toNat ≤ 8202) ||
  c.toNat = 8232 || c.toNat = 8233 || c.toNat = 8239 || c.toNat = 8287 ||
  c.toNat = 12288 || c.toNat = 65279

/-- Is `needle` a prefix of `hay`? -/
def prefixOfB : List Char → List Char → Bool
  | [], _ => true
  | _ :: _, [] => false
  | a :: as, b :: bs => a = b && prefixOfB as bs

/-- Does `hay` contain `needle` as a contiguous substring
(JS `String.prototype.includes`)? -/
def containsSub (needle : List Char) : List Char → Bool
  | [] => needle.isEmpty
  | c :: rest => prefixOfB needle (c :: rest) || containsSub needle rest

/-- Lifted containment: `containsS hay needle` is JS `hay.includes(needle)`. -/
def containsS (hay needle : String) : Bool :=
  containsSub needle.data hay.data

/-- Lifted lowercasing: JS `s.toLowerCase()` (ASCII model). -/
def lowerS (s : String) : String :=
  ⟨s.data.map toLowerJS⟩

/-- Drop trailing JS whitespace. -/
def dropTrailingWS : List Char → List Char
  | [] => []
  | c :: rest =>
    let r := dropTrailingWS rest
    if r.isEmpty && jsWS c then [] else c :: r

/-- JS `String.prototype.trim`: drop leading and trailing whitespace. -/
def trimJS (l : List Char) : List Char :=
  dropTrailingWS (l.dropWhile jsWS)

/-- Lifted trim: JS `s.trim()`. -/
def trimS (s : String) : String :=
  ⟨trimJS s.data⟩

/-- A character surviving the regex strip `replace(/[^a-z0-9\s]/g, '')`. -/
def keptByStrip (c : Char) : Bool :=
  isLowerAZ c || isDigit09 c || jsWS c

/-- The regex `replace(/\s+/g, ' ')`: collapse every maximal whitespace
run to a single space. -/
def collapseWS : List Char → List Char
  | [] => []
  | [c] => [if jsWS c then ' ' else c]
  | c₁ :: c₂ :: rest =>
    if jsWS c₁ && jsWS c₂ then collapseWS (c₂ :: rest)
    else (if jsWS c₁ then ' ' else c₁) :: collapseWS (c₂ :: rest)

/-- Character-level body of `normalizeIngredient`. -/
def normChars (l : List Char) : List Char :=
  trimJS (collapseWS ((l.map toLowerJS).filter keptByStrip))

/-- `normalizeIngredient` from `ingredientParser.js`: lowercase, strip
characters outside `[a-z0-9\s]`, collapse whitespace runs to one space,
trim. -/
def normalizeIngredient (name : String) : String :=
  ⟨normChars name.data⟩

/-! ### The Reference Database (`ingredientDatabase.js`)

The 25 records of the combined table, in JS object-literal insertion
order: preservatives, artificial sweeteners, artificial colors,
emulsifiers/thickeners, other additives, safe ingredients. -/

/-- An `IngredientRecord` of the Reference Database (engine-relevant
fields only). -/
structure Ingredient where
  id : String
  name : String
  category : String
  score : Int
  concern : String
  hiddenNames : List String
  kidAlert : Bool
  heartHealthAlert : Bool
  diabeticAlert : Bool
deriving Repr, DecidableEq

/-- The combined reference table, in insertion order. -/
def ingredientDatabaseList : List Ingredient := [
  { id := "sodium-nitrite", name := "Sodium Nitrite",
    category := "Preservative", score := 25, concern := "high",
    hiddenNames := ["Curing salt", "Prague Powder #1", "Pink curing salt",
      "Nitrite pickling salt", "Celery powder", "Celery juice", "Celery extract"],
    kidAlert := true, heartHealthAlert := true, diabeticAlert := false },
  { id := "sodium-benzoate", name := "Sodium Benzoate",
    category := "Preservative", score := 45, concern := "moderate",
    hiddenNames := ["Benzoate of soda", "Sodium salt of benzoic acid",
      "Benzoic acid (E210)", "Potassium benzoate (E212)", "Calcium benzoate (E213)"],
    kidAlert := true, heartHealthAlert := false, diabeticAlert := false },
  { id := "bha", name := "BHA (Butylated Hydroxyanisole)",
    category := "Preservative/Antioxidant", score := 30, concern := "high",
    hiddenNames := ["Butylated hydroxyanisole", "tert-butyl-4-hydroxyanisole",
      "Antioxidant BHA", "E320"],
    kidAlert := true, heartHealthAlert := false, diabeticAlert := false },
  { id := "bht", name := "BHT (Butylated Hydroxytoluene)",
    category := "Preservative/Antioxidant", score := 40, concern := "moderate",
    hiddenNames := ["Butylated hydroxytoluene", "2,6-di-tert-butyl-4-methylphenol",
      "DBPC", "E321"],
    kidAlert := true, heartHealthAlert := false, diabeticAlert := false },
  { id := "potassium-bromate", name := "Potassium Bromate",
    category := "Flour Improver", score := 10, concern := "high",
    hiddenNames := ["Bromate", "Bromated flour", "KBrO3"],
    kidAlert := true, heartHealthAlert := false, diabeticAlert := false },
  { id := "calcium-propionate", name := "Calcium Propionate",
    category := "Preservative", score := 85, concern := "low",
    hiddenNames := ["Calcium propanoate", "E282"],
    kidAlert := false, heartHealthAlert := false, diabeticAlert := false },
  { id := "aspartame", name := "Aspartame",
    category := "Artificial Sweetener", score := 35, concern := "high",
    hiddenNames := ["NutraSweet", "Equal", "Canderel", "AminoSweet",
      "L-aspartyl-L-phenylalanine methyl ester", "E951"],
    kidAlert := true, heartHealthAlert := false, diabeticAlert := true },
  { id := "sucralose", name := "Sucralose",
    category := "Artificial Sweetener", score := 40, concern := "moderate",
    hiddenNames := ["Splenda", "Sukrana", "SucraPlus", "Candys", "Nevella", "E955"],
    kidAlert := true, heartHealthAlert := false, diabeticAlert := true },
  { id := "high-fructose-corn-syrup", name := "High Fructose Corn Syrup",
    category := "Sweetener", score := 30, concern := "high",
    hiddenNames := ["Isoglucose", "Glucose-fructose syrup", "Fructose-glucose syrup",
      "Corn sugar (rejected by FDA)", "Maize syrup", "HFCS-42", "HFCS-55", "HFCS-90"],
    kidAlert := true, heartHealthAlert := true, diabeticAlert := true },
  { id := "red-40", name := "Red 40 (Allura Red AC)",
    category := "Artificial Color", score := 35, concern := "high",
    hiddenNames := ["Allura Red AC", "CI 16035", "Red 40 Lake", "FD&C Red No. 40",
      "INS 129", "E129"],
    kidAlert := true, heartHealthAlert := false, diabeticAlert := false },
  { id := "yellow-5", name := "Yellow 5 (Tartrazine)",
    category := "Artificial Color", score := 35, concern := "high",
    hiddenNames := ["Tartrazine", "CI 19140", "Acid Yellow 23", "FD&C Yellow No. 5",
      "INS 102", "E102"],
    kidAlert := true, heartHealthAlert := false, diabeticAlert := false },
  { id := "yellow-6", name := "Yellow 6 (Sunset Yellow)",
    category := "Artificial Color", score := 35, concern := "high",
    hiddenNames := ["Sunset Yellow FCF", "CI 15985", "Orange Yellow S",
      "FD&C Yellow No. 6", "INS 110", "E110"],
    kidAlert := true, heartHealthAlert := false, diabeticAlert := false },
  { id := "red-3", name := "Red 3 (Erythrosine)",
    category := "Artificial Color", score := 15, concern := "high",
    hiddenNames := ["Erythrosine B", "CI 45430", "Acid Red 51", "FD&C Red No. 3",
      "INS 127", "E127"],
    kidAlert := true, heartHealthAlert := false, diabeticAlert := false },
  { id := "caramel-color", name := "Caramel Color (Class III/IV)",
    category := "Color", score := 50, concern := "moderate",
    hiddenNames := ["Caramel color", "E150a (Class I - Plain, safer)",
      "E150b (Class II - Caustic sulfite)", "E150c (Class III - Ammonia, contains 4-MEI)",
      "E150d (Class IV - Sulfite ammonia, contains 4-MEI)"],
    kidAlert := true, heartHealthAlert := false, diabeticAlert := false },
  { id := "carrageenan", name := "Carrageenan",
    category := "Thickener/Stabilizer", score := 55, concern := "moderate",
    hiddenNames := ["Irish moss extract", "Chondrus crispus extract",
      "E407a (processed Eucheuma seaweed)", "PES", "E407"],
    kidAlert := true, heartHealthAlert := false, diabeticAlert := false },
  { id := "xanthan-gum", name := "Xanthan Gum",
    category := "Thickener/Stabilizer", score := 90, concern := "low",
    hiddenNames := ["Corn sugar gum", "Polysaccharide gum", "E415"],
    kidAlert := false, heartHealthAlert := false, diabeticAlert := false },
  { id := "mono-diglycerides", name := "Mono- and Diglycerides",
    category := "Emulsifier", score := 40, concern := "moderate",
    hiddenNames := ["Glyceryl monostearate (GMS)", "Glyceryl monopalmitate",
      "Distilled monoglycerides", "Acetylated monoglycerides", "DATEM (E472e)", "E471"],
    kidAlert := false, heartHealthAlert := true, diabeticAlert := false },
  { id := "msg", name := "MSG (Monosodium Glutamate)",
    category := "Flavor Enhancer", score := 70, concern := "low",
    hiddenNames := ["Glutamic acid (E620)", "Monopotassium glutamate (E622)",
      "Yeast extract", "Autolyzed yeast", "Hydrolyzed protein",
      "Natural flavors (may contain)"],
    kidAlert := false, heartHealthAlert := false, diabeticAlert := false },
  { id := "maltodextrin", name := "Maltodextrin",
    category := "Filler/Thickener", score := 50, concern := "moderate",
    hiddenNames := ["Modified cornstarch", "Modified food starch", "Glucose polymer",
      "Dextrin", "Corn starch solids"],
    kidAlert := false, heartHealthAlert := false, diabeticAlert := true },
  { id := "partially-hydrogenated-oils", name := "Partially Hydrogenated Oils (PHOs)",
    category := "Fat/Oil", score := 5, concern := "high",
    hiddenNames := ["Partially hydrogenated vegetable oil",
      "Partially hydrogenated soybean oil", "Partially hydrogenated cottonseed oil",
      "Partially hydrogenated canola oil", "Shortening (when made from PHOs)",
      "Hard margarine"],
    kidAlert := true, heartHealthAlert := true, diabeticAlert := true },
  { id := "citric-acid", name := "Citric Acid",
    category := "Acidulant/Preservative", score := 90, concern := "low",
    hiddenNames := [],
    kidAlert := false, heartHealthAlert := false, diabeticAlert := false },
  { id := "ascorbic-acid", name := "Ascorbic Acid (Vitamin C)",
    category := "Antioxidant/Vitamin", score := 95, concern := "low",
    hiddenNames := [],
    kidAlert := false, heartHealthAlert := false, diabeticAlert := false },
  { id := "tocopherols", name := "Tocopherols (Vitamin E)",
    category := "Antioxidant/Vitamin", score := 92, concern := "low",
    hiddenNames := [],
    kidAlert := false, heartHealthAlert := false, diabeticAlert := false },
  { id := "stevia", name := "Stevia (Steviol Glycosides)",
    category := "Natural Sweetener", score := 80, concern := "low",
    hiddenNames := [],
    kidAlert := false, heartHealthAlert := false, diabeticAlert := false },
  { id := "pectin", name := "Pectin",
    category := "Gelling Agent", score := 95, concern := "low",
    hiddenNames := [],
    kidAlert := false, heartHealthAlert := false, diabeticAlert := false } ]

/-! ### Alias lists (`ingredientDatabase.js`) -/

/-- `hiddenSugarNames`: the flat hidden-sugar alias list. -/
def hiddenSugarNames : List String := [
  "sucrose", "glucose", "fructose", "dextrose", "maltose", "lactose", "galactose",
  "trehalose", "high fructose corn syrup", "corn syrup", "corn syrup solids",
  "malt syrup", "maple syrup", "rice syrup", "brown rice syrup", "golden syrup",
  "agave syrup", "agave nectar", "carob syrup", "buttered syrup", "sorghum syrup",
  "refiner\x27s syrup", "tapioca syrup", "oat syrup", "starch syrup", "brown sugar",
  "cane sugar", "raw sugar", "beet sugar", "coconut sugar", "coconut palm sugar",
  "date sugar", "grape sugar", "golden sugar", "yellow sugar", "castor sugar",
  "confectioner\x27s sugar", "powdered sugar", "icing sugar", "turbinado sugar",
  "demerara sugar", "muscovado sugar", "panela sugar", "sucanat", "granulated sugar",
  "table sugar", "florida crystals", "cane juice crystals", "organic raw sugar",
  "fruit juice", "fruit juice concentrate", "evaporated cane juice",
  "concentrated fruit juice", "barley malt", "barley malt extract", "malt extract",
  "maltodextrin", "diastatic malt", "ethyl maltol", "malted barley", "honey",
  "molasses", "blackstrap molasses", "treacle", "invert sugar",
  "crystalline fructose", "dextrin", "caramel", "panocha", "glucose syrup solids",
  "mannose", "sweet sorghum" ]

/-- `hiddenMSGNames.alwaysContainsMSG`. -/
def alwaysContainsMSG : List String := [
  "monosodium glutamate", "glutamic acid", "glutamate", "monopotassium glutamate",
  "calcium glutamate", "monoammonium glutamate", "magnesium glutamate",
  "natrium glutamate", "yeast extract", "torula yeast", "autolyzed yeast",
  "brewer\x27s yeast", "nutritional yeast", "yeast food", "yeast nutrient",
  "hydrolyzed protein", "hydrolyzed soy protein", "hydrolyzed wheat protein",
  "hydrolyzed pea protein", "hydrolyzed whey protein", "hydrolyzed corn protein",
  "hydrolyzed vegetable protein", "calcium caseinate", "sodium caseinate",
  "gelatin", "textured protein", "soy protein", "soy protein concentrate",
  "soy protein isolate", "whey protein", "whey protein concentrate",
  "whey protein isolate", "soy sauce", "soy sauce extract", "protease",
  "vetsin", "ajinomoto" ]

/-- `hiddenMSGNames.oftenContainsMSG`. -/
def oftenContainsMSG : List String := [
  "carrageenan", "bouillon", "broth", "stock", "flavors", "flavoring",
  "natural flavor", "natural flavoring", "maltodextrin", "oligodextrin",
  "citric acid", "barley malt", "malted barley", "pectin", "malt extract",
  "seasonings" ]

/-- `isHiddenSugar` from `ingredientDatabase.js`. -/
def isHiddenSugar (name : String) : Bool :=
  hiddenSugarNames.any (fun sugar => containsS (lowerS name) (lowerS sugar))

/-- Result shape of `checkForMSG`. -/
structure MSGCheck where
  containsMSG : Bool
  certainty : Option String
deriving Repr, DecidableEq

/-- `checkForMSG` from `ingredientDatabase.js`. -/
def checkForMSG (name : String) : MSGCheck :=
  let normalizedName := lowerS name
  if alwaysContainsMSG.any (fun n => containsS normalizedName (lowerS n)) then
    { containsMSG := true, certainty := some "high" }
  else if oftenContainsMSG.any (fun n => containsS normalizedName (lowerS n)) then
    { containsMSG := true, certainty := some "moderate" }
  else
    { containsMSG := false, certainty := none }

/-! ### The Matcher (`ingredientParser.js`) -/

/-- Per-record hit test of `searchIngredients`: the record is pushed to
the result list iff its lowercased `name` contains the lowercased,
trimmed query, or (failing that) one of its lowercased `hiddenNames`
does. -/
def searchHit (normalizedQuery : String) (r : Ingredient) : Bool :=
  containsS (lowerS r.name) normalizedQuery ||
  r.hiddenNames.any (fun h => containsS (lowerS h) normalizedQuery)

/-- `searchIngredients` from `ingredientDatabase.js`: collect, in table
order, every record whose name or hidden name contains the query.
(The JS version decorates each hit with a `matchType` tag that the
matcher never reads; the tag is dropped here.) -/
def searchIngredients (query : String) : List Ingredient :=
  ingredientDatabaseList.filter (searchHit (trimS (lowerS query)))

/-- The `for`-loop body of `findIngredientMatch`: walk the table in
order; per record, return it on exact normalized-name equality, else on
bidirectional normalized-name containment, else on bidirectional
containment against one of its normalized hidden names. -/
def findIngredientMatchIn (normalized : String) : List Ingredient → Option Ingredient
  | [] => none
  | r :: rest =>
    let dbNormalized := normalizeIngredient r.name
    if normalized = dbNormalized then some r
    else if containsS normalized dbNormalized || containsS dbNormalized normalized then
      some r
    else if r.hiddenNames.any (fun h =>
        let hiddenNormalized := normalizeIngredient h
        containsS normalized hiddenNormalized || containsS hiddenNormalized normalized) then
      some r
    else findIngredientMatchIn normalized rest

/-- `findIngredientMatch` from `ingredientParser.js`: first the direct
search (taking `searchResults[0]`), then the per-record loop, else
`null`. -/
def findIngredientMatch (ingredientName : String) : Option Ingredient :=
  match (searchIngredients ingredientName).head? with
  | some r => some r
  | none => findIngredientMatchIn (normalizeIngredient ingredientName) ingredientDatabaseList

/-! ### The Unknown-Ingredient Classifier (`ingredientParser.js`) -/

/-- Result shape of `assessUnknownIngredient`. -/
structure Assessment where
  score : Int
  concern : String
  category : String
  note : Option String
deriving Repr, DecidableEq

/-- `assessUnknownIngredient` from `ingredientParser.js`: the keyword
decision cascade for ingredients absent from the database. -/
def assessUnknownIngredient (name : String) : Assessment :=
  let lower := lowerS name
  if isHiddenSugar name then
    { score := 30, concern := "moderate", category := "Hidden Sugar",
      note := some "This is a form of added sugar" }
  else
    let msgCheck := checkForMSG name
    if msgCheck.containsMSG then
      { score := if msgCheck.certainty = some "high" then 50 else 60,
        concern := "moderate", category := "Flavor Enhancer",
        note := some ("May contain MSG (" ++ (msgCheck.certainty.getD "") ++ " certainty)") }
    else if ["artificial", "synthetic", "hydrogenated", "modified"].any
        (fun flag => containsS lower flag) then
      { score := 40, concern := "moderate", category := "Processed Additive", note := none }
    else if ["flavor", "color", "dye", "preservative"].any
        (fun flag => containsS lower flag) then
      { score := 50, concern := "moderate", category := "Additive", note := none }
    else if ["organic", "natural", "vitamin", "mineral", "water", "salt", "spice"].any
        (fun flag => containsS lower flag) then
      { score := 80, concern := "low", category := "Natural Ingredient", note := none }
    else
      { score := 70, concern := "low", category := "Ingredient", note := none }

/-! ### The Scoring Aggregator (`parseIngredients` in `ingredientParser.js`) -/

/-- A `ParsedIngredient` of the output (the matched record's display-only
text fields are omitted, as in the spec's core contract). -/
structure ParsedIngredient where
  id : String
  name : String
  score : Int
  category : String
  concern : String
  note : Option String
  foundInDatabase : Bool
deriving Repr, DecidableEq

/-- One concern bucket: a counter and the list of offending names. -/
structure ConcernBucket where
  count : Nat
  names : List String
deriving Repr, DecidableEq

/-- The three concern buckets. -/
structure Concerns where
  sugar : ConcernBucket
  preservatives : ConcernBucket
  artificial : ConcernBucket
deriving Repr, DecidableEq

/-- A profile alert. -/
structure ProfileAlert where
  profile : String
  message : String
deriving Repr, DecidableEq

/-- The input tuple from the vision collaborator.  Absent optional
fields are modelled by `""`, which is what the `||`-defaulting of the
source treats them as. -/
structure AIResult where
  productName : String
  brand : String
  ingredients : List String
  rawText : String
deriving Repr, DecidableEq

/-- The `ProductResult` output of the aggregator. -/
structure ProductResult where
  id : String
  name : String
  brand : String
  category : String
  overallScore : Int
  rawText : String
  ingredients : List ParsedIngredient
  concerns : Concerns
  profileAlerts : List ProfileAlert
  scannedAt : Nat
deriving Repr, DecidableEq

/-- The loop state of `parseIngredients`. -/
structure ScanState where
  parsed : List ParsedIngredient
  concerns : Concerns
  profileAlerts : List ProfileAlert
  totalScore : Int
  highConcernCount : Nat
deriving Repr, DecidableEq

/-- The initial loop state. -/
def initialScanState : ScanState :=
  { parsed := []
    concerns :=
      { sugar := { count := 0, names := [] }
        preservatives := { count := 0, names := [] }
        artificial := { count := 0, names := [] } }
    profileAlerts := []
    totalScore := 0
    highConcernCount := 0 }

/-- Spec of `concerns.sugar.count++; concerns.sugar.names.push(n)`. -/
def bumpBucket (b : ConcernBucket) (n : String) : ConcernBucket :=
  { count := b.count + 1, names := b.names ++ [n] }

/-- The profile-alert pushes of the match branch: each alert type is
appended at most once per product (`find` on the existing list). -/
def pushAlerts (alerts : List ProfileAlert) (m : Ingredient) : List ProfileAlert :=
  let a1 :=
    if m.kidAlert && !(alerts.any (fun a => containsS a.profile "Kids")) then
      alerts ++ [{ profile := "👧 Kids",
                   message := "Contains " ++ m.name ++ " - caution advised for children" }]
    else alerts
  let a2 :=
    if m.heartHealthAlert && !(a1.any (fun a => containsS a.profile "Heart")) then
      a1 ++ [{ profile := "❤️ Heart Health",
               message := "Contains " ++ m.name ++ " - monitor for heart health" }]
    else a1
  if m.diabeticAlert && !(a2.any (fun a => containsS a.profile "Diabetic")) then
    a2 ++ [{ profile := "🩺 Diabetic",
             message := "Contains " ++ m.name ++ " - watch glycemic impact" }]
  else a2

/-- One iteration of the `for (const ingredientName of ingredients)`
loop of `parseIngredients`. -/
def processIngredient (st : ScanState) (ingredientName : String) : ScanState :=
  match findIngredientMatch ingredientName with
  | some m =>
    let ingredientData : ParsedIngredient :=
      { id := m.id, name := m.name, score := m.score, category := m.category,
        concern := m.concern, note := none, foundInDatabase := true }
    let sugar :=
      if containsS (lowerS m.category) "sweetener" || isHiddenSugar ingredientName then
        bumpBucket st.concerns.sugar m.name
      else st.concerns.sugar
    let preservatives :=
      if containsS (lowerS m.category) "preservative" then
        bumpBucket st.concerns.preservatives m.name
      else st.concerns.preservatives
    let artificial :=
      if containsS (lowerS m.category) "artificial" || containsS (lowerS m.category) "color" then
        bumpBucket st.concerns.artificial m.name
      else st.concerns.artificial
    { parsed := st.parsed ++ [ingredientData]
      concerns := { sugar := sugar, preservatives := preservatives, artificial := artificial }
      profileAlerts := pushAlerts st.profileAlerts m
      totalScore := st.totalScore + ingredientData.score
      highConcernCount :=
        st.highConcernCount + (if ingredientData.concern = "high" then 1 else 0) }
  | none =>
    let assessment := assessUnknownIngredient ingredientName
    let ingredientData : ParsedIngredient :=
      { id := ⟨(normalizeIngredient ingredientName).data.map
                 (fun c => if jsWS c then '-' else c)⟩
        name := ingredientName, score := assessment.score,
        category := assessment.category, concern := assessment.concern,
        note := assessment.note, foundInDatabase := false }
    let sugar :=
      if assessment.category = "Hidden Sugar" then
        bumpBucket st.concerns.sugar ingredientName
      else st.concerns.sugar
    { parsed := st.parsed ++ [ingredientData]
      concerns := { st.concerns with sugar := sugar }
      profileAlerts := st.profileAlerts
      totalScore := st.totalScore + ingredientData.score
      highConcernCount :=
        st.highConcernCount + (if ingredientData.concern = "high" then 1 else 0) }

/-- JS `Math.round(t / n)` for `t ≥ 0`, `n > 0`:
`floor(t / n + 1 / 2) = (2 t + n) / (2 n)` in integer division. -/
def jsRoundDiv (t : Int) (n : Nat) : Int :=
  (2 * t + n) / (2 * n)

/-- `parseIngredients` from `ingredientParser.js`.  `now` is the
`Date.now()` reading at the call. -/
def parseIngredients (aiResult : AIResult) (now : Nat) : ProductResult :=
  let st := aiResult.ingredients.foldl processIngredient initialScanState
  let base : Int :=
    if st.parsed.length > 0 then jsRoundDiv st.totalScore st.parsed.length else 50
  let afterHigh : Int := max 5 (base - st.highConcernCount * 8)
  let totalConcerns : Nat :=
    st.concerns.sugar.count + st.concerns.preservatives.count + st.concerns.artificial.count
  let overallScore : Int := if totalConcerns > 5 then max 5 (afterHigh - 10) else afterHigh
  { id := "scan-" ++ toString now
    name := if aiResult.productName = "" then "Scanned Product" else aiResult.productName
    brand := if aiResult.brand = "" then "Unknown Brand" else aiResult.brand
    category := "Food Product"
    overallScore := overallScore
    rawText := if aiResult.rawText = "" then String.intercalate ", " aiResult.ingredients
               else aiResult.rawText
    ingredients := st.parsed
    concerns := st.concerns
    profileAlerts := st.profileAlerts
    scannedAt := now }

/-! ### The Alternative Ranker (`getAlternativesForCategory` in the
AI-service module) -/

/-- A static `AlternativeCandidate` catalog entry (display-only
`stores` / `highlights` lists omitted). -/
structure Alt where
  name : String
  brand : String
  score : Int
  price : String
deriving Repr, DecidableEq

/-- The `Other` fallback bucket of `CATEGORY_ALTERNATIVES`. -/
def otherAlternatives : List Alt :=
  [ { name := "Organic Alternative", brand := "Various", score := 75, price := "Varies" } ]

/-- `CATEGORY_ALTERNATIVES`: the fixed candidate buckets, keyed by
category, in object-literal order. -/
def categoryAlternatives : List (String × List Alt) := [
  ("Beverage",
    [ { name := "Organic Kombucha", brand := "GT\x27s", score := 82, price := "$3.99" },
      { name := "Sparkling Water with Fruit", brand := "Spindrift", score := 90,
        price := "$5.99/8pk" },
      { name := "Cold-Pressed Green Juice", brand := "Suja", score := 78, price := "$4.49" },
      { name := "Coconut Water", brand := "Harmless Harvest", score := 85, price := "$4.29" } ]),
  ("Dairy",
    [ { name := "Organic Whole Milk Yogurt", brand := "Stonyfield", score := 80,
        price := "$5.49" },
      { name := "Grass-Fed Whole Milk", brand := "Organic Valley", score := 85,
        price := "$6.99" },
      { name := "Oat Milk (Unsweetened)", brand := "Oatly", score := 75, price := "$4.99" } ]),
  ("Snack",
    [ { name := "Organic Veggie Straws", brand := "Hippeas", score := 72, price := "$4.29" },
      { name := "Mixed Nuts (Unsalted)", brand := "Planters", score := 88, price := "$7.99" },
      { name := "Organic Apple Chips", brand := "Bare", score := 82, price := "$3.99" } ]),
  ("Meat",
    [ { name := "Uncured Turkey Dogs", brand := "Applegate", score := 72, price := "$6.99" },
      { name := "Organic Grass-Fed Beef Franks", brand := "Organic Prairie", score := 78,
        price := "$8.49" },
      { name := "All Natural Uncured Beef Franks", brand := "Niman Ranch", score := 70,
        price := "$7.49" } ]),
  ("Grain",
    [ { name := "Organic Sprouted Bread", brand := "Ezekiel 4:9", score := 88,
        price := "$5.99" },
      { name := "Organic Brown Rice", brand := "Lundberg", score := 92, price := "$4.99" },
      { name := "Ancient Grain Pasta", brand := "Banza", score := 80, price := "$3.49" } ]),
  ("Condiment",
    [ { name := "Organic Yellow Mustard", brand := "Annie\x27s", score := 85,
        price := "$3.49" },
      { name := "Avocado Oil Mayo", brand := "Primal Kitchen", score := 78,
        price := "$8.99" },
      { name := "Organic Ketchup", brand := "Annie\x27s", score := 72, price := "$3.99" } ]),
  ("Supplement",
    [ { name := "Methylated B-Complex", brand := "Thorne", score := 92, price := "$28.00" },
      { name := "Chelated Magnesium Glycinate", brand := "Pure Encapsulations", score := 90,
        price := "$24.00" },
      { name := "Whole Food Multivitamin", brand := "Garden of Life", score := 82,
        price := "$32.99" } ]),
  ("Baby Food",
    [ { name := "Organic Baby Puree", brand := "Happy Baby", score := 88, price := "$1.49" },
      { name := "Organic Teething Wafers", brand := "Happy Baby", score := 80,
        price := "$3.99" } ]),
  ("Frozen",
    [ { name := "Organic Frozen Vegetables", brand := "Cascadian Farm", score := 92,
        price := "$3.49" },
      { name := "Cauliflower Crust Pizza", brand := "Caulipower", score := 68,
        price := "$8.99" } ]),
  ("Bakery",
    [ { name := "Organic Sourdough Bread", brand := "Dave\x27s Killer Bread", score := 78,
        price := "$5.49" },
      { name := "Gluten-Free Seed Crackers", brand := "Simple Mills", score := 80,
        price := "$4.99" } ]),
  ("Candy",
    [ { name := "Dark Chocolate (85%)", brand := "Hu", score := 75, price := "$4.99" },
      { name := "Fruit Snacks (Real Fruit)", brand := "That\x27s It", score := 85,
        price := "$4.49" } ]),
  ("Other", otherAlternatives) ]

/-- The own-property part of
`CATEGORY_ALTERNATIVES[category] || CATEGORY_ALTERNATIVES['Other']`:
the bucket an own key selects, with the `Other` fallback on a key miss.
(`getAlternativesForCategoryJS` below also models the inherited-key
error path of the bracket lookup.) -/
def lookupBucket (category : String) : List Alt :=
  match categoryAlternatives.find? (fun p => p.1 = category) with
  | some p => p.2
  | none => otherAlternatives

/-- Digit run to number. -/
def digitsToNat (l : List Char) : Nat :=
  l.foldl (fun acc c => 10 * acc + (c.toNat - 48)) 0

/-- An exact decimal as an unnormalized fraction `num / den` with `den`
a power of ten (the values `parseFloat` yields on the catalog's price
strings are exactly representable this way, and their comparisons with
the integer thresholds 4 and 7 agree with IEEE-double comparison since
no price sits on a threshold). -/
structure JSNum where
  num : Nat
  den : Nat
deriving Repr, DecidableEq

/-- JS `parseFloat` on a digits-and-dots string (which is all
`price.replace(/[^0-9.]/g, '')` can produce): longest valid decimal
prefix, `none` for `NaN`. -/
def parseFloatJS (l : List Char) : Option JSNum :=
  let intDigits := l.takeWhile isDigit09
  let rest := l.dropWhile isDigit09
  match rest with
  | '.' :: rest2 =>
    let fracDigits := rest2.takeWhile isDigit09
    if intDigits.isEmpty && fracDigits.isEmpty then none
    else some { num := digitsToNat intDigits * 10 ^ fracDigits.length +
                  digitsToNat fracDigits,
                den := 10 ^ fracDigits.length }
  | _ =>
    if intDigits.isEmpty then none
    else some { num := digitsToNat intDigits, den := 1 }

/-- `parseFloat(alt.price.replace(/[^0-9.]/g, ''))`. -/
def priceNumOf (price : String) : Option JSNum :=
  parseFloatJS (price.data.filter (fun c => isDigit09 c || c = '.'))

/-- Exact `k < num/den` for an integer threshold `k`. -/
def jsNumGtNat (v : JSNum) (k : Nat) : Bool :=
  k * v.den < v.num

/-- Exact `num/den ≤ k` for an integer threshold `k`. -/
def jsNumLeNat (v : JSNum) (k : Nat) : Bool :=
  v.num ≤ k * v.den

/-- The decorated `priceLevel`: `> 7` high, `> 4` moderate, else budget
(`NaN` fails both comparisons, landing on budget). -/
def priceLevelOf (price : String) : String :=
  match priceNumOf price with
  | some v => if jsNumGtNat v 7 then "high"
              else if jsNumGtNat v 4 then "moderate" else "budget"
  | none => "budget"

/-- The decorated `budgetPick`: `price <= 4` (`false` on `NaN`). -/
def budgetPickOf (price : String) : Bool :=
  match priceNumOf price with
  | some v => jsNumLeNat v 4
  | none => false

/-- A catalog entry decorated by the ranker's `.map`. -/
structure DecoratedAlt where
  id : Nat
  name : String
  brand : String
  score : Int
  price : String
  improvement : Int
  priceLevel : String
  budgetPick : Bool
deriving Repr, DecidableEq

/-- The ranker's `.map((alt, index) => ...)`, with `index` starting at
`i`. -/
def decorateFrom (originalScore : Int) : Nat → List Alt → List DecoratedAlt
  | _, [] => []
  | i, a :: rest =>
    { id := i + 1, name := a.name, brand := a.brand, score := a.score, price := a.price,
      improvement := max 0 (a.score - originalScore),
      priceLevel := priceLevelOf a.price,
      budgetPick := budgetPickOf a.price } :: decorateFrom originalScore (i + 1) rest

/-- Stable insertion step for the descending-by-`improvement` sort. -/
def insDesc (x : DecoratedAlt) : List DecoratedAlt → List DecoratedAlt
  | [] => [x]
  | y :: ys => if y.improvement ≤ x.improvement then x :: y :: ys else y :: insDesc x ys

/-- `.sort((a, b) => b.improvement - a.improvement)`, modelled as the
unique stable sort for that comparator. -/
def sortByImprovementDesc : List DecoratedAlt → List DecoratedAlt
  | [] => []
  | x :: l => insDesc x (sortByImprovementDesc l)

/-- `getAlternativesForCategory` from the AI-service module, on the
own-property reading of the bucket lookup (the inputs the engine is
exercised with; see `getAlternativesForCategoryJS` for the full
bracket-lookup semantics). -/
def getAlternativesForCategory (category : String) (originalScore : Int) :
    List DecoratedAlt :=
  sortByImprovementDesc
    ((decorateFrom originalScore 0 (lookupBucket category)).filter
      (fun alt => originalScore < alt.score))

/-- The property keys every plain object literal inherits from
`Object.prototype`.  `CATEGORY_ALTERNATIVES[k]` for `k` among these
returns the inherited member — a function, or `Object.prototype`
itself for `__proto__` — which is truthy and not an array. -/
def protoKeys : List String :=
  ["constructor", "hasOwnProperty", "isPrototypeOf", "propertyIsEnumerable",
   "toLocaleString", "toString", "valueOf", "__proto__", "__defineGetter__",
   "__defineSetter__", "__lookupGetter__", "__lookupSetter__"]

/-- `getAlternativesForCategory` with the JS prototype chain of the
bracket lookup modelled: an own key selects its bucket; a category
string naming an inherited `Object.prototype` member gets a truthy
non-array past the `||`, and the `.map` on it throws a `TypeError`
(`none`); any other string gets `undefined` and falls back to the
`Other` bucket. -/
def getAlternativesForCategoryJS (category : String) (originalScore : Int) :
    Option (List DecoratedAlt) :=
  match categoryAlternatives.find? (fun p => p.1 = category) with
  | some p => some (sortByImprovementDesc
      ((decorateFrom originalScore 0 p.2).filter
        (fun alt => originalScore < alt.score)))
  | none =>
    if protoKeys.contains category then none
    else some (sortByImprovementDesc
      ((decorateFrom originalScore 0 otherAlternatives).filter
        (fun alt => originalScore < alt.score)))

/-! ### Spec-side reference definitions

These follow the specification text rather than the source, and are
compared with the source-derived definitions in the refinement
theorems below. -/

/-- The Matcher algorithm exactly as the specification words it
(spec §4.2): four separate full passes over the table — (1) does
`normalize(record.name)` contain `normalize(rawName)`; (2) exact
equality of normalized names; (3) bidirectional containment of
normalized names; (4) bidirectional containment against normalized
hidden names — each pass taking the first record in insertion order,
an earlier pass always beating a later one. -/
def specMatchSpec (rawName : String) : Option Ingredient :=
  let n := normalizeIngredient rawName
  match ingredientDatabaseList.find? (fun r => containsS (normalizeIngredient r.name) n) with
  | some r => some r
  | none =>
  match ingredientDatabaseList.find? (fun r => normalizeIngredient r.name = n) with
  | some r => some r
  | none =>
  match ingredientDatabaseList.find? (fun r =>
      containsS n (normalizeIngredient r.name) ||
      containsS (normalizeIngredient r.name) n) with
  | some r => some r
  | none =>
  ingredientDatabaseList.find? (fun r => r.hiddenNames.any (fun h =>
      containsS n (normalizeIngredient h) || containsS (normalizeIngredient h) n))

/-- The matching algorithm the source actually implements, phrased
pass-by-pass: (1) one full pass testing the lowercased, trimmed raw
name for containment in the lowercased record name or, failing that, in
one of the lowercased hidden names — first record with either hit wins;
(2) one further single pass testing, per record, exact normalized
equality, bidirectional normalized-name containment, or bidirectional
normalized hidden-name containment — the first record satisfying any of
the three wins; (3) otherwise no match. -/
def specMatchAmended (rawName : String) : Option Ingredient :=
  let q := trimS (lowerS rawName)
  match ingredientDatabaseList.find? (fun r =>
      containsS (lowerS r.name) q ||
      r.hiddenNames.any (fun h => containsS (lowerS h) q)) with
  | some r => some r
  | none =>
    let n := normalizeIngredient rawName
    ingredientDatabaseList.find? (fun r =>
      normalizeIngredient r.name = n ||
      (containsS n (normalizeIngredient r.name) ||
       containsS (normalizeIngredient r.name) n) ||
      r.hiddenNames.any (fun h =>
        containsS n (normalizeIngredient h) ||
        containsS (normalizeIngredient h) n))

/-- The Unknown Classifier decision table exactly as the specification
words it (spec §4.3): first matching rule wins, case-insensitive
substring tests against the lowercased raw name. -/
def specClassify (rawName : String) : Assessment :=
  let lower := lowerS rawName
  if hiddenSugarNames.any (fun a => containsS lower a) then
    { score := 30, concern := "moderate", category := "Hidden Sugar",
      note := some "This is a form of added sugar" }
  else if alwaysContainsMSG.any (fun a => containsS lower a) then
    { score := 50, concern := "moderate", category := "Flavor Enhancer",
      note := some "May contain MSG (high certainty)" }
  else if oftenContainsMSG.any (fun a => containsS lower a) then
    { score := 60, concern := "moderate", category := "Flavor Enhancer",
      note := some "May contain MSG (moderate certainty)" }
  else if ["artificial", "synthetic", "hydrogenated", "modified"].any
      (fun flag => containsS lower flag) then
    { score := 40, concern := "moderate", category := "Processed Additive", note := none }
  else if ["flavor", "color", "dye", "preservative"].any
      (fun flag => containsS lower flag) then
    { score := 50, concern := "moderate", category := "Additive", note := none }
  else if ["organic", "natural", "vitamin", "mineral", "water", "salt", "spice"].any
      (fun flag => containsS lower flag) then
    { score := 80, concern := "low", category := "Natural Ingredient", note := none }
  else
    { score := 70, concern := "low", category := "Ingredient", note := none }

/-! ### Generic helper lemmas -/

/-- The head of a filtered list is the first element satisfying the
predicate. -/
theorem head?_filter {α : Type} (p : α → Bool) (l : List α) :
    (l.filter p).head? = l.find? p := by
  induction l with
  | nil => rfl
  | cons a t ih =>
    by_cases h : p a
    · simp [List.filter_cons_of_pos h, List.find?_cons_of_pos _ h]
    · simp [List.filter_cons_of_neg h, List.find?_cons_of_neg _ h, ih]

/-! ### Claim theorems -/

/-- The concrete scenario input of the spec's first scoring scenario. -/
def scenarioInput : AIResult :=
  { productName := "", brand := "",
    ingredients := ["Sodium Nitrite", "High Fructose Corn Syrup", "Citric Acid"],
    rawText := "" }

/-- C1 (counterexample): on the shipped database the scenario input
`["Sodium Nitrite", "High Fructose Corn Syrup", "Citric Acid"]` does
not produce overall score 40, and its preservative tally is not 1. -/
theorem scenario_score_counterexample :
    (parseIngredients scenarioInput 0).overallScore ≠ 40 ∧
    (parseIngredients scenarioInput 0).concerns.preservatives.count ≠ 1 := by
  refine ⟨?_, ?_⟩ <;> decide

/-- C1 (amended): the scenario produces overall score 32: the base is
round(145/3) = 48, but two ingredients are high-concern in the shipped
database (Sodium Nitrite and High Fructose Corn Syrup, the latter
stored with `concern: high`), giving a penalty of 16; the tallies are
sugar = 1 (HFCS) and preservatives = 2 (Sodium Nitrite, plus Citric
Acid whose category `Acidulant/Preservative` contains `preservative`),
total 3, below the bulk threshold. -/
theorem scenario_score_amended :
    (parseIngredients scenarioInput 0).overallScore = 32 ∧
    ((parseIngredients scenarioInput 0).ingredients.map ParsedIngredient.score) =
      [25, 30, 90] ∧
    jsRoundDiv (25 + 30 + 90) 3 = 48 ∧
    ((parseIngredients scenarioInput 0).ingredients.filter
      (fun i => i.concern = "high")).length = 2 ∧
    (parseIngredients scenarioInput 0).concerns.sugar =
      { count := 1, names := ["High Fructose Corn Syrup"] } ∧
    (parseIngredients scenarioInput 0).concerns.preservatives =
      { count := 2, names := ["Sodium Nitrite", "Citric Acid"] } ∧
    (parseIngredients scenarioInput 0).concerns.artificial =
      { count := 0, names := [] } := by
  refine ⟨?_, ?_, ?_, ?_, ?_, ?_, ?_⟩ <;> rfl

/-- An empty input tuple. -/
def emptyInput : AIResult :=
  { productName := "", brand := "", ingredients := [], rawText := "" }

/-- C3 (counterexample): two aggregator calls on the same input at
different clock readings are not byte-identical — the output embeds
the `Date.now()` reading. -/
theorem aggregator_not_byte_identical :
    parseIngredients emptyInput 0 ≠ parseIngredients emptyInput 1 := by
  decide

/-- C3 (amended): the aggregator is deterministic in every output field
except the clock-derived `id` and `scannedAt`; two calls on the same
input and database snapshot agree byte-for-byte exactly when they read
the same clock value.  (The Matcher, Classifier and Ranker, embedded as
the pure functions `findIngredientMatch`, `assessUnknownIngredient` and
`getAlternativesForCategory`, take no clock at all.) -/
theorem aggregator_deterministic_except_clock (inp : AIResult) (n n' : Nat) :
    ((parseIngredients inp n).name = (parseIngredients inp n').name ∧
     (parseIngredients inp n).brand = (parseIngredients inp n').brand ∧
     (parseIngredients inp n).category = (parseIngredients inp n').category ∧
     (parseIngredients inp n).overallScore = (parseIngredients inp n').overallScore ∧
     (parseIngredients inp n).rawText = (parseIngredients inp n').rawText ∧
     (parseIngredients inp n).ingredients = (parseIngredients inp n').ingredients ∧
     (parseIngredients inp n).concerns = (parseIngredients inp n').concerns ∧
     (parseIngredients inp n).profileAlerts = (parseIngredients inp n').profileAlerts) ∧
    (parseIngredients inp n = parseIngredients inp n' ↔ n = n') := by
  refine ⟨⟨rfl, rfl, rfl, rfl, rfl, rfl, rfl, rfl⟩, ?_, ?_⟩
  · intro h
    exact congrArg ProductResult.scannedAt h
  · intro h
    rw [h]

/-- C4: the overall score never drops below 5, and the empty ingredient
list scores exactly 50. -/
theorem overallScore_floor (inp : AIResult) (now : Nat) :
    5 ≤ (parseIngredients inp now).overallScore ∧
    (inp.ingredients = [] → (parseIngredients inp now).overallScore = 50) := by
  constructor
  · unfold parseIngredients
    dsimp only
    split
    · exact le_max_left _ _
    · exact le_max_left _ _
  · intro h
    simp [parseIngredients, h, initialScanState]

/-- Witness for `overallScore_floor` at a concrete empty input. -/
theorem overallScore_floor_witness :
    5 ≤ (parseIngredients emptyInput 7).overallScore ∧
    (parseIngredients emptyInput 7).overallScore = 50 :=
  ⟨(overallScore_floor emptyInput 7).1, (overallScore_floor emptyInput 7).2 rfl⟩

/-! ### Ranker lemmas -/

/-- Membership through the stable insertion step. -/
theorem mem_insDesc (a x : DecoratedAlt) (l : List DecoratedAlt) :
    a ∈ insDesc x l ↔ a = x ∨ a ∈ l := by
  induction l with
  | nil => simp [insDesc]
  | cons y ys ih =>
    by_cases h : y.improvement ≤ x.improvement
    · rw [insDesc, if_pos h]
      simp [or_comm, or_assoc, or_left_comm]
    · rw [insDesc, if_neg h]
      simp only [List.mem_cons, ih]
      tauto

/-- The sort permutes: membership is unchanged. -/
theorem mem_sortDesc (a : DecoratedAlt) (l : List DecoratedAlt) :
    a ∈ sortByImprovementDesc l ↔ a ∈ l := by
  induction l with
  | nil => simp [sortByImprovementDesc]
  | cons x t ih =>
    rw [sortByImprovementDesc, mem_insDesc]
    simp [ih]

/-- Every decorated element originates from a catalog entry, carries
the derived `improvement`/`priceLevel`/`budgetPick` of that entry, and
has `id` above the starting index. -/
theorem mem_decorateFrom (s : Int) (a : DecoratedAlt) (i : Nat) (l : List Alt)
    (h : a ∈ decorateFrom s i l) :
    (∃ b ∈ l, a.name = b.name ∧ a.brand = b.brand ∧ a.score = b.score ∧
      a.price = b.price ∧ a.improvement = max 0 (b.score - s) ∧
      a.priceLevel = priceLevelOf b.price ∧ a.budgetPick = budgetPickOf b.price) ∧
    i < a.id := by
  induction l generalizing i with
  | nil => simp [decorateFrom] at h
  | cons b t ih =>
    rw [decorateFrom] at h
    rcases List.mem_cons.mp h with h1 | h2
    · subst h1
      exact ⟨⟨b, List.mem_cons_self b t, rfl, rfl, rfl, rfl, rfl, rfl, rfl⟩,
        Nat.lt_succ_self i⟩
    · obtain ⟨⟨c, hc, hp⟩, hi⟩ := ih (i + 1) h2
      exact ⟨⟨c, List.mem_cons_of_mem b hc, hp⟩, by omega⟩

/-- The decorated catalog has strictly increasing `id`s. -/
theorem decorateFrom_id_lt (s : Int) (i : Nat) (l : List Alt) :
    (decorateFrom s i l).Pairwise (fun a b => a.id < b.id) := by
  induction l generalizing i with
  | nil => exact List.Pairwise.nil
  | cons b t ih =>
    rw [decorateFrom]
    refine List.pairwise_cons.mpr ⟨?_, ih (i + 1)⟩
    intro y hy
    have := (mem_decorateFrom s y (i + 1) t hy).2
    simpa using this

/-- The insertion step preserves the descending-stable invariant, given
that the inserted element precedes (in `id`) everything in the list. -/
theorem insDesc_pairwise (x : DecoratedAlt) (l : List DecoratedAlt)
    (hl : l.Pairwise (fun a b =>
      b.improvement ≤ a.improvement ∧ (a.improvement = b.improvement → a.id < b.id)))
    (hx : ∀ y ∈ l, x.id < y.id) :
    (insDesc x l).Pairwise (fun a b =>
      b.improvement ≤ a.improvement ∧ (a.improvement = b.improvement → a.id < b.id)) := by
  induction l with
  | nil => simp [insDesc]
  | cons y ys ih =>
    rcases List.pairwise_cons.mp hl with ⟨hy, hys⟩
    by_cases h : y.improvement ≤ x.improvement
    · rw [insDesc, if_pos h]
      refine List.pairwise_cons.mpr ⟨?_, hl⟩
      intro z hz
      rcases List.mem_cons.mp hz with rfl | hz'
      · exact ⟨h, fun _ => hx z (List.mem_cons_self z ys)⟩
      · have h1 := hy z hz'
        exact ⟨le_trans h1.1 h, fun _ => hx z (List.mem_cons_of_mem y hz')⟩
    · rw [insDesc, if_neg h]
      push_neg at h
      refine List.pairwise_cons.mpr
        ⟨?_, ih hys (fun z hz => hx z (List.mem_cons_of_mem y hz))⟩
      intro z hz
      rcases (mem_insDesc z x ys).mp hz with rfl | hz'
      · exact ⟨le_of_lt h, fun he => absurd he (by omega)⟩
      · exact hy z hz'

/-- The sort of a strictly `id`-increasing list is descending in
`improvement`, with ties kept in `id` (catalog) order. -/
theorem sortDesc_pairwise (l : List DecoratedAlt)
    (h : l.Pairwise (fun a b => a.id < b.id)) :
    (sortByImprovementDesc l).Pairwise (fun a b =>
      b.improvement ≤ a.improvement ∧ (a.improvement = b.improvement → a.id < b.id)) := by
  induction l with
  | nil => simp [sortByImprovementDesc]
  | cons x t ih =>
    rcases List.pairwise_cons.mp h with ⟨hx, ht⟩
    exact insDesc_pairwise x _ (ih ht) (fun y hy => hx y ((mem_sortDesc y t).mp hy))

/-- C6: the ranker output is sorted by descending improvement with ties
in catalog order, every element strictly beats the original score, and
each carries `improvement = max(0, score - originalScore)`. -/
theorem ranker_strict_improvement_sorted (category : String) (originalScore : Int) :
    ((getAlternativesForCategory category originalScore).Pairwise (fun a b =>
        b.improvement ≤ a.improvement ∧ (a.improvement = b.improvement → a.id < b.id))) ∧
    ∀ a ∈ getAlternativesForCategory category originalScore,
      originalScore < a.score ∧ a.improvement = max 0 (a.score - originalScore) := by
  constructor
  · exact sortDesc_pairwise _
      (List.Pairwise.sublist (List.filter_sublist _) (decorateFrom_id_lt originalScore 0 _))
  · intro a ha
    have ha' := (mem_sortDesc a _).mp ha
    have hmem := List.mem_filter.mp ha'
    have hscore : originalScore < a.score := by
      have := hmem.2
      simpa using this
    obtain ⟨⟨b, _, _, _, hs, _, himp, _, _⟩, _⟩ :=
      mem_decorateFrom originalScore a 0 _ hmem.1
    exact ⟨hscore, by rw [himp, hs]⟩

/-- The top-ranked decorated candidate of the spec's Supplement/40
scenario. -/
def supplementTop : DecoratedAlt :=
  { id := 1, name := "Methylated B-Complex", brand := "Thorne", score := 92,
    price := "$28.00", improvement := 52, priceLevel := "high", budgetPick := false }

/-- Witness for `ranker_strict_improvement_sorted`: the spec's
Supplement/40 scenario, checked on its top-ranked element. -/
theorem ranker_strict_improvement_sorted_witness :
    ((getAlternativesForCategory "Supplement" 40).Pairwise (fun a b =>
        b.improvement ≤ a.improvement ∧ (a.improvement = b.improvement → a.id < b.id))) ∧
    ((40 : Int) < supplementTop.score ∧
      supplementTop.improvement = max 0 (supplementTop.score - 40)) :=
  ⟨(ranker_strict_improvement_sorted "Supplement" 40).1,
   (ranker_strict_improvement_sorted "Supplement" 40).2 supplementTop (by decide)⟩

/-- C7 (counterexample): the category string `"toString"` is not one of
the catalog's own keys, yet the ranker does not fall back to the
`Other` bucket — the bracket lookup finds the inherited
`Object.prototype.toString`, which is truthy, and the `.map` on it
throws a `TypeError`. -/
theorem ranker_prototype_counterexample :
    getAlternativesForCategoryJS "toString" 50 = none ∧
    categoryAlternatives.find? (fun p => p.1 = "toString") = none := by
  exact ⟨by decide, by decide⟩

/-- C7 (amended): for every category string that is not an inherited
`Object.prototype` property key, the ranker returns without throwing;
every returned candidate then originates from the bucket selected for
that category, and an unrecognized (non-inherited) category selects the
`Other` bucket. -/
theorem ranker_category_lock_amended (category : String) (originalScore : Int)
    (hproto : protoKeys.contains category = false) :
    getAlternativesForCategoryJS category originalScore =
      some (getAlternativesForCategory category originalScore) ∧
    (∀ a ∈ getAlternativesForCategory category originalScore,
      ∃ b ∈ lookupBucket category, a.name = b.name ∧ a.brand = b.brand ∧
        a.score = b.score ∧ a.price = b.price) ∧
    (categoryAlternatives.find? (fun p => p.1 = category) = none →
      lookupBucket category = otherAlternatives) := by
  refine ⟨?_, ?_, ?_⟩
  · unfold getAlternativesForCategoryJS getAlternativesForCategory lookupBucket
    cases hfind : categoryAlternatives.find? (fun p => p.1 = category) with
    | some p => rfl
    | none => rw [if_neg (fun h => Bool.false_ne_true (hproto ▸ h))]
  · intro a ha
    have ha' := (mem_sortDesc a _).mp ha
    have hmem := (List.mem_filter.mp ha').1
    obtain ⟨⟨b, hb, hn, hbr, hs, hp, _⟩, _⟩ :=
      mem_decorateFrom originalScore a 0 _ hmem
    exact ⟨b, hb, hn, hbr, hs, hp⟩
  · intro h
    unfold lookupBucket
    rw [h]

/-- The decorated `Other`-bucket candidate the ranker returns for an
unrecognized category and any baseline below 75. -/
def otherDecorated (s : Int) : DecoratedAlt :=
  { id := 1, name := "Organic Alternative", brand := "Various", score := 75,
    price := "Varies", improvement := 75 - s, priceLevel := "budget",
    budgetPick := false }

/-- Witness for `ranker_category_lock_amended`: the unrecognized,
non-inherited category `"Cosmetics"` at score 50. -/
theorem ranker_category_lock_amended_witness :
    getAlternativesForCategoryJS "Cosmetics" 50 =
      some (getAlternativesForCategory "Cosmetics" 50) ∧
    (∃ b ∈ lookupBucket "Cosmetics",
      (otherDecorated 50).name = b.name ∧ (otherDecorated 50).brand = b.brand ∧
      (otherDecorated 50).score = b.score ∧ (otherDecorated 50).price = b.price) ∧
    lookupBucket "Cosmetics" = otherAlternatives :=
  ⟨(ranker_category_lock_amended "Cosmetics" 50 (by decide)).1,
   (ranker_category_lock_amended "Cosmetics" 50 (by decide)).2.1
     (otherDecorated 50) (by decide),
   (ranker_category_lock_amended "Cosmetics" 50 (by decide)).2.2 (by decide)⟩

/-- C10: for any unrecognized category and baseline below 75, the
ranker returns exactly the `Other` bucket's sole candidate, whose price
string `"Varies"` contains no digits: its numeric parse is `NaN`, so it
fails the `> 7` and `> 4` tests (priceLevel `"budget"`) and also fails
the `<= 4` test (`budgetPick = false`). -/
theorem ranker_varies_price_budget (s : Int) (h : s < 75) :
    getAlternativesForCategory "Cosmetics" s = [otherDecorated s] ∧
    priceNumOf "Varies" = none := by
  refine ⟨?_, rfl⟩
  unfold getAlternativesForCategory
  rw [show lookupBucket "Cosmetics" = otherAlternatives from rfl]
  rw [show decorateFrom s 0 otherAlternatives =
    [{ id := 1, name := "Organic Alternative", brand := "Various", score := 75,
       price := "Varies", improvement := max 0 (75 - s), priceLevel := "budget",
       budgetPick := false }] from rfl]
  rw [List.filter_cons_of_pos (by simpa using h)]
  rw [show (max 0 (75 - s) : Int) = 75 - s by omega]
  rfl

/-- Witness for `ranker_varies_price_budget` at baseline 50. -/
theorem ranker_varies_price_budget_witness :
    getAlternativesForCategory "Cosmetics" 50 = [otherDecorated 50] ∧
    priceNumOf "Varies" = none :=
  ranker_varies_price_budget 50 (by norm_num)

/-! ### Aggregator invariants -/

/-- Bumping a bucket preserves count/names agreement. -/
theorem bumpBucket_consistent (b : ConcernBucket) (n : String)
    (h : b.count = b.names.length) :
    (bumpBucket b n).count = (bumpBucket b n).names.length := by
  simp [bumpBucket, h]

/-- One loop iteration preserves count/names agreement in all three
buckets. -/
theorem processIngredient_consistent (st : ScanState) (name : String)
    (h1 : st.concerns.sugar.count = st.concerns.sugar.names.length)
    (h2 : st.concerns.preservatives.count = st.concerns.preservatives.names.length)
    (h3 : st.concerns.artificial.count = st.concerns.artificial.names.length) :
    (processIngredient st name).concerns.sugar.count =
      (processIngredient st name).concerns.sugar.names.length ∧
    (processIngredient st name).concerns.preservatives.count =
      (processIngredient st name).concerns.preservatives.names.length ∧
    (processIngredient st name).concerns.artificial.count =
      (processIngredient st name).concerns.artificial.names.length := by
  unfold processIngredient
  cases findIngredientMatch name with
  | some m =>
    refine ⟨?_, ?_, ?_⟩ <;> dsimp only <;> split <;>
      simp [bumpBucket, h1, h2, h3]
  | none =>
    refine ⟨?_, ?_, ?_⟩ <;> dsimp only
    · split <;> simp [bumpBucket, h1]
    · exact h2
    · exact h3

/-- The whole loop preserves count/names agreement. -/
theorem foldl_consistent (l : List String) (st : ScanState)
    (h1 : st.concerns.sugar.count = st.concerns.sugar.names.length)
    (h2 : st.concerns.preservatives.count = st.concerns.preservatives.names.length)
    (h3 : st.concerns.artificial.count = st.concerns.artificial.names.length) :
    (l.foldl processIngredient st).concerns.sugar.count =
      (l.foldl processIngredient st).concerns.sugar.names.length ∧
    (l.foldl processIngredient st).concerns.preservatives.count =
      (l.foldl processIngredient st).concerns.preservatives.names.length ∧
    (l.foldl processIngredient st).concerns.artificial.count =
      (l.foldl processIngredient st).concerns.artificial.names.length := by
  induction l generalizing st with
  | nil => exact ⟨h1, h2, h3⟩
  | cons a t ih =>
    have h := processIngredient_consistent st a h1 h2 h3
    exact ih (processIngredient st a) h.1 h.2.1 h.2.2

/-- C9: in every `ProductResult`, each concern bucket's counter equals
the length of its name list — the counter is bumped exactly when a name
is appended. -/
theorem concern_tallies_consistent (inp : AIResult) (now : Nat) :
    (parseIngredients inp now).concerns.sugar.count =
      (parseIngredients inp now).concerns.sugar.names.length ∧
    (parseIngredients inp now).concerns.preservatives.count =
      (parseIngredients inp now).concerns.preservatives.names.length ∧
    (parseIngredients inp now).concerns.artificial.count =
      (parseIngredients inp now).concerns.artificial.names.length :=
  foldl_consistent inp.ingredients initialScanState rfl rfl rfl

/-! ### Matcher refinement -/

/-- The matcher's per-record loop is a single `find?` pass with the
three per-record tests disjoined. -/
theorem findIngredientMatchIn_eq_find (n : String) (l : List Ingredient) :
    findIngredientMatchIn n l = l.find? (fun r =>
      normalizeIngredient r.name = n ||
      (containsS n (normalizeIngredient r.name) ||
       containsS (normalizeIngredient r.name) n) ||
      r.hiddenNames.any (fun h =>
        containsS n (normalizeIngredient h) ||
        containsS (normalizeIngredient h) n)) := by
  induction l with
  | nil => rfl
  | cons r rest ih =>
    rw [findIngredientMatchIn, List.find?_cons]
    dsimp only
    split_ifs with h1 h2 h3
    · simp [h1]
    · simp [h2]
    · simp [h3]
    · have h1' : ¬(normalizeIngredient r.name = n) := fun hh => h1 hh.symm
      simp [h1', h2, h3, ih]

/-- C2 (counterexample): on the raw name `"acid"` the source matcher
returns the Sodium Benzoate record (its hidden name `"Sodium salt of
benzoic acid"` is hit in the first pass, which consults hidden names
too), while the spec's reference algorithm returns Citric Acid (the
first record whose normalized name contains `"acid"`). -/
theorem matcher_spec_counterexample :
    findIngredientMatch "acid" ≠ specMatchSpec "acid" := by
  decide

/-- C2 (amended): the source matcher equals the corrected two-pass
reference algorithm: pass 1 tests the lowercased, trimmed raw name for
containment in lowercased record names and lowercased hidden names;
pass 2 is one fused pass in which exact normalized equality,
bidirectional normalized-name containment and bidirectional normalized
hidden-name containment are tested together per record. -/
theorem matcher_eq_amended (rawName : String) :
    findIngredientMatch rawName = specMatchAmended rawName := by
  unfold findIngredientMatch specMatchAmended searchIngredients
  rw [head?_filter, findIngredientMatchIn_eq_find]
  rfl

/-! ### Classifier refinement -/

/-- Dropping a redundant `toLowerCase` over a list of already-lowercase
alias strings does not change an `any` of containment tests. -/
theorem any_lowerS_fixed (L : List String) (hL : ∀ a ∈ L, lowerS a = a) (x : String) :
    (L.any fun a => containsS x (lowerS a)) = L.any fun a => containsS x a := by
  induction L with
  | nil => rfl
  | cons a t ih =>
    simp only [List.any_cons]
    rw [hL a (List.mem_cons_self a t),
        ih (fun b hb => hL b (List.mem_cons_of_mem a hb))]

/-- Every hidden-sugar alias is already lowercase. -/
theorem hiddenSugarNames_lower : ∀ a ∈ hiddenSugarNames, lowerS a = a := by
  decide

/-- Every always-MSG alias is already lowercase. -/
theorem alwaysContainsMSG_lower : ∀ a ∈ alwaysContainsMSG, lowerS a = a := by
  decide

/-- Every often-MSG alias is already lowercase. -/
theorem oftenContainsMSG_lower : ∀ a ∈ oftenContainsMSG, lowerS a = a := by
  decide

/-- C5: the source classifier implements exactly the spec's decision
table (first rule wins, case-insensitive substring tests on the
lowercased raw name), and in particular classifies
`"Organic Quinoa Flakes"` as a Natural Ingredient with score 80 and
low concern. -/
theorem classifier_matches_spec :
    (∀ rawName, assessUnknownIngredient rawName = specClassify rawName) ∧
    assessUnknownIngredient "Organic Quinoa Flakes" =
      { score := 80, concern := "low", category := "Natural Ingredient", note := none } := by
  constructor
  · intro rawName
    unfold assessUnknownIngredient specClassify isHiddenSugar checkForMSG
    dsimp only
    rw [any_lowerS_fixed hiddenSugarNames hiddenSugarNames_lower,
        any_lowerS_fixed alwaysContainsMSG alwaysContainsMSG_lower,
        any_lowerS_fixed oftenContainsMSG oftenContainsMSG_lower]
    by_cases h1 : (hiddenSugarNames.any fun a => containsS (lowerS rawName) a) = true
    · simp [h1]
    · by_cases h2 : (alwaysContainsMSG.any fun a => containsS (lowerS rawName) a) = true
      · simp [h1, h2]
      · by_cases h3 : (oftenContainsMSG.any fun a => containsS (lowerS rawName) a) = true
        · simp [h1, h2, h3]
        · simp [h1, h2, h3]
  · rfl

/-! ### Normalizer idempotence lemmas -/

/-- Characters that are not ASCII uppercase are fixed by the
lowercasing. -/
theorem toLowerJS_fixed {c : Char} (h : isUpperAZ c = false) : toLowerJS c = c := by
  simp [toLowerJS, h]

/-- Every character of a collapsed string is a plain space or a
non-whitespace character of the input. -/
theorem mem_collapseWS : ∀ (l : List Char) (c : Char), c ∈ collapseWS l →
    c = ' ' ∨ (c ∈ l ∧ jsWS c = false)
  | [], c, h => by simp [collapseWS] at h
  | [d], c, h => by
    cases hd : jsWS d with
    | true =>
      simp [collapseWS, hd] at h
      exact Or.inl h
    | false =>
      simp [collapseWS, hd] at h
      exact Or.inr ⟨by simp [h], by rw [h]; exact hd⟩
  | d₁ :: d₂ :: rest, c, h => by
    rw [collapseWS] at h
    by_cases hg : (jsWS d₁ && jsWS d₂) = true
    · rw [if_pos hg] at h
      rcases mem_collapseWS (d₂ :: rest) c h with h' | ⟨hm, hw⟩
      · exact Or.inl h'
      · exact Or.inr ⟨List.mem_cons_of_mem d₁ hm, hw⟩
    · rw [if_neg hg] at h
      rcases List.mem_cons.mp h with h' | h'
      · cases h1 : jsWS d₁ with
        | true =>
          rw [if_pos (by rw [h1])] at h'
          exact Or.inl h'
        | false =>
          rw [if_neg (by rw [h1]; exact Bool.false_ne_true)] at h'
          exact Or.inr ⟨by rw [h']; exact List.mem_cons_self d₁ (d₂ :: rest),
            by rw [h']; exact h1⟩
      · rcases mem_collapseWS (d₂ :: rest) c h' with h'' | ⟨hm, hw⟩
        · exact Or.inl h''
        · exact Or.inr ⟨List.mem_cons_of_mem d₁ hm, hw⟩

/-- Collapsing walks past a non-whitespace head unchanged. -/
theorem collapseWS_cons_of_not_ws {c : Char} (rest : List Char)
    (h : jsWS c = false) : collapseWS (c :: rest) = c :: collapseWS rest := by
  cases rest with
  | nil => simp [collapseWS, h]
  | cons d t =>
    rw [collapseWS, if_neg (by simp [h]), if_neg (by simp [h])]

/-- A collapsed string has no two adjacent whitespace characters. -/
theorem chain'_collapseWS : ∀ (l : List Char),
    (collapseWS l).Chain' (fun a b => ¬(jsWS a = true ∧ jsWS b = true))
  | [] => by simp [collapseWS]
  | [d] => by
    by_cases hd : jsWS d = true <;> simp [collapseWS, hd]
  | d₁ :: d₂ :: rest => by
    rw [collapseWS]
    by_cases hg : (jsWS d₁ && jsWS d₂) = true
    · rw [if_pos hg]
      exact chain'_collapseWS (d₂ :: rest)
    · rw [if_neg hg]
      refine List.chain'_cons'.mpr ⟨?_, chain'_collapseWS (d₂ :: rest)⟩
      intro y hy
      by_cases h2 : jsWS d₂ = true
      · have h1 : jsWS d₁ = false := by
          cases hjs : jsWS d₁
          · rfl
          · exact absurd (by simp [hjs, h2]) hg
        rw [if_neg (by simp [h1])]
        intro hc
        rw [h1] at hc
        exact Bool.false_ne_true hc.1
      · rw [collapseWS_cons_of_not_ws rest (by simpa using h2)] at hy
        simp only [List.head?_cons, Option.mem_def, Option.some.injEq] at hy
        subst hy
        intro hc
        exact h2 hc.2

/-- Collapsing is the identity on a string whose whitespace characters
are all plain spaces with no two adjacent. -/
theorem collapseWS_eq_self : ∀ (l : List Char),
    (∀ c ∈ l, jsWS c = true → c = ' ') →
    l.Chain' (fun a b => ¬(jsWS a = true ∧ jsWS b = true)) →
    collapseWS l = l
  | [], _, _ => rfl
  | [d], h1, _ => by
    by_cases hd : jsWS d = true
    · rw [collapseWS, if_pos hd, h1 d (List.mem_cons_self d []) hd]
    · rw [collapseWS, if_neg hd]
  | d₁ :: d₂ :: rest, h1, h2 => by
    have hg : ¬(jsWS d₁ = true ∧ jsWS d₂ = true) := (List.chain'_cons.mp h2).1
    rw [collapseWS, if_neg (by simpa [Bool.and_eq_true] using hg)]
    have htail := collapseWS_eq_self (d₂ :: rest)
      (fun c hc hw => h1 c (List.mem_cons_of_mem d₁ hc) hw) (List.chain'_cons.mp h2).2
    rw [htail]
    by_cases h1d : jsWS d₁ = true
    · rw [if_pos h1d, h1 d₁ (List.mem_cons_self d₁ (d₂ :: rest)) h1d]
    · rw [if_neg h1d]

/-- `dropWhile` preserves adjacency constraints. -/
theorem chain'_dropWhile {R : Char → Char → Prop} (p : Char → Bool) :
    ∀ (l : List Char), l.Chain' R → (l.dropWhile p).Chain' R := by
  intro l
  induction l with
  | nil => intro h; simp
  | cons c t ih =>
    intro h
    rw [List.dropWhile_cons]
    split
    · exact ih (List.Chain'.tail h)
    · exact h

/-- The head surviving `dropWhile` fails the predicate. -/
theorem head_dropWhile_false (p : Char → Bool) :
    ∀ (l : List Char) (c : Char) (t : List Char), l.dropWhile p = c :: t → p c = false := by
  intro l
  induction l with
  | nil => intro c t h; simp at h
  | cons d rest ih =>
    intro c t h
    rw [List.dropWhile_cons] at h
    split at h
    · exact ih c t h
    · rename_i hd
      have h1 : d = c := ((List.cons.injEq d rest c t).mp h).1
      subst h1
      simpa using hd

/-- Dropping trailing whitespace yields a sublist-membership. -/
theorem mem_dropTrailingWS : ∀ (l : List Char) (c : Char),
    c ∈ dropTrailingWS l → c ∈ l
  | [], c, h => by simp [dropTrailingWS] at h
  | d :: rest, c, h => by
    rw [dropTrailingWS] at h
    split at h
    · simp at h
    · rcases List.mem_cons.mp h with h' | h'
      · exact h' ▸ List.mem_cons_self d rest
      · exact List.mem_cons_of_mem d (mem_dropTrailingWS rest c h')

/-- `dropTrailingWS` returns either the empty list or a list with the
same head. -/
theorem dropTrailingWS_shape (l : List Char) (c : Char) (t : List Char)
    (h : dropTrailingWS l = c :: t) : ∃ t', l = c :: t' := by
  cases l with
  | nil => simp [dropTrailingWS] at h
  | cons d rest =>
    rw [dropTrailingWS] at h
    split at h
    · exact absurd h (by simp)
    · exact ⟨rest, by rw [(List.cons.injEq ..).mp h |>.1]⟩

/-- `dropTrailingWS` preserves adjacency constraints. -/
theorem chain'_dropTrailingWS {R : Char → Char → Prop} :
    ∀ (l : List Char), l.Chain' R → (dropTrailingWS l).Chain' R
  | [], h => by simp [dropTrailingWS]
  | d :: rest, h => by
    rw [dropTrailingWS]
    split
    · exact List.chain'_nil
    · refine List.chain'_cons'.mpr ⟨?_, chain'_dropTrailingWS rest (List.Chain'.tail h)⟩
      intro y hy
      rcases hhead : dropTrailingWS rest with _ | ⟨e, t⟩
      · rw [hhead] at hy; simp at hy
      · rw [hhead] at hy
        simp only [List.head?_cons, Option.mem_def, Option.some.injEq] at hy
        subst hy
        obtain ⟨t', ht'⟩ := dropTrailingWS_shape rest e t hhead
        rw [ht'] at h
        exact (List.chain'_cons.mp h).1

/-- The last character surviving `dropTrailingWS` is not whitespace. -/
theorem getLast_dropTrailingWS : ∀ (l : List Char) (c : Char),
    (dropTrailingWS l).getLast? = some c → jsWS c = false
  | [], c, h => by simp [dropTrailingWS] at h
  | d :: rest, c, h => by
    rw [dropTrailingWS] at h
    split at h
    · simp at h
    · rename_i hcond
      rcases hr : dropTrailingWS rest with _ | ⟨e, t⟩
      · rw [hr] at h hcond
        simp only [List.getLast?_singleton, Option.some.injEq] at h
        subst h
        simpa using hcond
      · rw [hr, List.getLast?_cons_cons, ← hr] at h
        exact getLast_dropTrailingWS rest c h

/-- `dropTrailingWS` is the identity when the last character is not
whitespace. -/
theorem dropTrailingWS_eq_self : ∀ (l : List Char),
    (∀ c, l.getLast? = some c → jsWS c = false) → dropTrailingWS l = l
  | [], _ => rfl
  | d :: rest, h => by
    rw [dropTrailingWS]
    cases rest with
    | nil =>
      have hd : jsWS d = false := h d rfl
      simp [dropTrailingWS, hd]
    | cons e t =>
      have htail := dropTrailingWS_eq_self (e :: t)
        (fun c hc => h c (by rw [List.getLast?_cons_cons]; exact hc))
      rw [htail]
      simp

/-- Mapping a function that fixes every element is the identity. -/
theorem map_fixed {f : Char → Char} : ∀ (l : List Char), (∀ c ∈ l, f c = c) → l.map f = l
  | [], _ => rfl
  | c :: t, h => by
    rw [List.map_cons, h c (List.mem_cons_self c t),
        map_fixed t (fun b hb => h b (List.mem_cons_of_mem c hb))]

/-- Characters of a normalized string survive the strip filter, are not
ASCII uppercase, and any whitespace among them is a plain space. -/
theorem mem_normChars (l : List Char) (c : Char) (h : c ∈ normChars l) :
    keptByStrip c = true ∧ isUpperAZ c = false ∧ (jsWS c = true → c = ' ') := by
  unfold normChars trimJS at h
  have h1 : c ∈ collapseWS ((l.map toLowerJS).filter keptByStrip) :=
    (List.dropWhile_sublist jsWS).subset (mem_dropTrailingWS _ c h)
  rcases mem_collapseWS _ c h1 with h2 | ⟨h2, hw⟩
  · subst h2
    exact ⟨by decide, by decide, fun _ => rfl⟩
  · have hk := (List.mem_filter.mp h2).2
    refine ⟨hk, ?_, fun hws => absurd (hw.symm.trans hws) Bool.false_ne_true⟩
    have hk' := hk
    simp only [keptByStrip, isLowerAZ, isDigit09, jsWS, Bool.or_eq_true,
      Bool.and_eq_true, decide_eq_true_eq] at hk'
    have hw' := hw
    simp only [jsWS, Bool.or_eq_false_iff, Bool.and_eq_false_iff,
      decide_eq_false_iff_not] at hw'
    have hupper : ¬(isUpperAZ c = true) := by
      simp only [isUpperAZ, Bool.and_eq_true, decide_eq_true_eq]
      omega
    simpa using hupper

/-- The head of a normalized string is not whitespace. -/
theorem head_normChars (l : List Char) (c : Char) (t : List Char)
    (h : normChars l = c :: t) : jsWS c = false := by
  unfold normChars trimJS at h
  obtain ⟨t', ht'⟩ := dropTrailingWS_shape _ c t h
  exact head_dropWhile_false jsWS _ c t' ht'

/-- A normalized string has no two adjacent whitespace characters. -/
theorem chain'_normChars (l : List Char) :
    (normChars l).Chain' (fun a b => ¬(jsWS a = true ∧ jsWS b = true)) :=
  chain'_dropTrailingWS _ (chain'_dropWhile jsWS _ (chain'_collapseWS _))

/-- The character-level normalizer is idempotent. -/
theorem normChars_idem (l : List Char) : normChars (normChars l) = normChars l := by
  have hmem := fun c hc => mem_normChars l c hc
  have hmap : (normChars l).map toLowerJS = normChars l :=
    map_fixed _ (fun c hc => toLowerJS_fixed (hmem c hc).2.1)
  have hfilter : (normChars l).filter keptByStrip = normChars l :=
    List.filter_eq_self.mpr (fun c hc => (hmem c hc).1)
  have hcollapse : collapseWS (normChars l) = normChars l :=
    collapseWS_eq_self _ (fun c hc hw => (hmem c hc).2.2 hw) (chain'_normChars l)
  have hdrop : (normChars l).dropWhile jsWS = normChars l := by
    rcases hshape : normChars l with _ | ⟨c, t⟩
    · rfl
    · rw [List.dropWhile_cons, if_neg (by simp [head_normChars l c t hshape])]
  have hlast : ∀ c, (normChars l).getLast? = some c → jsWS c = false := by
    intro c hc
    unfold normChars trimJS at hc
    exact getLast_dropTrailingWS _ c hc
  have hdt : dropTrailingWS (normChars l) = normChars l :=
    dropTrailingWS_eq_self _ hlast
  show trimJS (collapseWS (((normChars l).map toLowerJS).filter keptByStrip)) = normChars l
  rw [hmap, hfilter, hcollapse]
  unfold trimJS
  rw [hdrop, hdt]

/-- C8: the normalizer is a total function on strings and is
idempotent: normalizing twice equals normalizing once, for every
string. -/
theorem normalize_idempotent (s : String) :
    normalizeIngredient (normalizeIngredient s) = normalizeIngredient s :=
  congrArg String.mk (normChars_idem s.data)
